import Mathlib

/-!
Shallow embedding of `src/classifier/data/cifar10_datamodule.py`
(class `CIFARDataModule`, a Lightning data module for CIFAR10).

Samples are abstracted to their indices in the concatenated pool: a
materialized subset is the list of pool indices it views (exactly the
`indices` slices that `torch.utils.data.random_split` produces).  The
per-sample pixel transform does not affect any claim and is not modelled.

`torch.randperm` under a manually seeded generator is a deterministic
function of the seed and the length; it is passed as an explicit
function parameter `randperm : Nat → Nat → List Nat` (seed, length),
and theorems that need it assume it returns a permutation of
`List.range n`.
-/

/-- Number of samples in a torchvision `CIFAR10(..., train=b)` dataset:
50000 training images when `train=True`, 10000 test images when
`train=False` (an external fact about the CIFAR-10 distribution). -/
def cifar10Size (train : Bool) : Nat :=
  if train then 50000 else 10000

/-- Values storable in the Lightning `hparams` attribute dictionary. -/
inductive HVal where
  | str : String → HVal
  | nat : Nat → HVal
  | triple : Nat × Nat × Nat → HVal
  | bool : Bool → HVal
deriving Repr, DecidableEq

/-- The constructor parameters of `CIFARDataModule.__init__`, saved by
`self.save_hyperparameters(logger=False)`.  Note the field spelling
`num_worker` (no trailing `s`), exactly as in the source. -/
structure HParams where
  data_dir : String
  train_val_test_split : Nat × Nat × Nat
  batch_size : Nat
  num_worker : Nat
  pin_memory : Bool
deriving Repr, DecidableEq

/-- Lookup in the `hparams` attribute dictionary: the keys are exactly
the names of the saved `__init__` parameters. -/
def HParams.get (h : HParams) : String → Option HVal
  | "data_dir" => some (.str h.data_dir)
  | "train_val_test_split" => some (.triple h.train_val_test_split)
  | "batch_size" => some (.nat h.batch_size)
  | "num_worker" => some (.nat h.num_worker)
  | "pin_memory" => some (.bool h.pin_memory)
  | _ => none

/-- Python attribute access `self.hparams.<name>`: a missing key raises
`AttributeError`. -/
def HParams.getattr (h : HParams) (name : String) : Except String HVal :=
  match h.get name with
  | some v => .ok v
  | none => .error ("AttributeError: " ++ name)

/-- The default `__init__` arguments of `CIFARDataModule`. -/
def defaultHParams : HParams :=
  { data_dir := "data/"
    train_val_test_split := (55000, 5000, 10000)
    batch_size := 64
    num_worker := 0
    pin_memory := false }

/-- State of a `CIFARDataModule` instance: the saved hyperparameters and
the three optional dataset handles (`None` until `setup` populates
them).  A populated handle holds the list of pool indices of its
`Subset` view. -/
structure CIFARDataModule where
  hparams : HParams
  data_train : Option (List Nat)
  data_val : Option (List Nat)
  data_test : Option (List Nat)
deriving Repr, DecidableEq

/-- `CIFARDataModule.__init__`: stores the hyperparameters and sets the
three dataset handles to `None`. -/
def CIFARDataModule.init (h : HParams) : CIFARDataModule :=
  { hparams := h, data_train := none, data_val := none, data_test := none }

/-- A fresh instance built with all-default constructor arguments,
as in `CIFARDataModule()`. -/
def defaultModule : CIFARDataModule :=
  CIFARDataModule.init defaultHParams

/-- Python truthiness of an optional dataset handle: `None` is falsy,
and a `Subset` is falsy exactly when its length is 0. -/
def pyTruthy : Option (List Nat) → Bool
  | none => false
  | some xs => !xs.isEmpty

/-- Successive slices `indices[offset - length : offset]` taken by
`torch.utils.data.random_split` from the permuted index list. -/
def splitChunks : List Nat → List Nat → List (List Nat)
  | [], _ => []
  | l :: ls, xs => xs.take l :: splitChunks ls (xs.drop l)

/-- The `ValueError` message raised by `torch.utils.data.random_split`
on a length mismatch. -/
def sumLengthsErr : String :=
  "Sum of input lengths does not equal the length of the input dataset!"

/-- `torch.utils.data.random_split(dataset, lengths, generator)` for
integer lengths: raises `ValueError` when the lengths do not sum to the
dataset length, otherwise draws `randperm(sum(lengths))` from the
seeded generator and returns the successive index slices. -/
def random_split (randperm : Nat → Nat → List Nat) (datasetLen : Nat)
    (lengths : List Nat) (seed : Nat) : Except String (List (List Nat)) :=
  if lengths.sum ≠ datasetLen then
    .error sumLengthsErr
  else
    .ok (splitChunks lengths (randperm seed lengths.sum))

/-- `CIFARDataModule.setup`: when all three handles are Python-falsy,
loads `CIFAR10(train=True)` twice (both the `trainset` and the
`testset` variable hold the training partition, as in the source),
concatenates them, and splits the pool with
`random_split(..., generator=torch.Generator().manual_seed(42))`,
tuple-unpacking the result into the three handles (Python raises
`ValueError` if the result were not a triple); otherwise `setup` is a
no-op. -/
def CIFARDataModule.setup (randperm : Nat → Nat → List Nat)
    (m : CIFARDataModule) : Except String CIFARDataModule :=
  if !pyTruthy m.data_train && !pyTruthy m.data_val && !pyTruthy m.data_test then
    let trainsetLen := cifar10Size true
    let testsetLen := cifar10Size true
    let datasetLen := trainsetLen + testsetLen
    match random_split randperm datasetLen
        [m.hparams.train_val_test_split.1, m.hparams.train_val_test_split.2.1,
         m.hparams.train_val_test_split.2.2] 42 with
    | .error e => .error e
    | .ok subsets =>
        match subsets with
        | [t, v, w] =>
            .ok { m with data_train := some t, data_val := some v,
                         data_test := some w }
        | _ => .error "ValueError: unpack mismatch"
  else
    .ok m

/-- Arguments captured by a constructed `torch.utils.data.DataLoader`. -/
structure DataLoader where
  dataset : Option (List Nat)
  batch_size : HVal
  num_workers : HVal
  pin_memory : HVal
  shuffle : Bool
deriving Repr, DecidableEq

/-- `CIFARDataModule.train_dataloader`: builds a `DataLoader` over
`self.data_train` with `shuffle=True`; the argument expressions are
evaluated in source order, so `self.hparams.num_workers` is read (note
the trailing `s`, absent from the saved hyperparameter name). -/
def CIFARDataModule.train_dataloader (m : CIFARDataModule) :
    Except String DataLoader := do
  let bs ← m.hparams.getattr "batch_size"
  let nw ← m.hparams.getattr "num_workers"
  let pm ← m.hparams.getattr "pin_memory"
  .ok { dataset := m.data_train, batch_size := bs, num_workers := nw,
        pin_memory := pm, shuffle := true }

/-- `CIFARDataModule.val_dataloader`: as `train_dataloader` but over
`self.data_val` with `shuffle=False`. -/
def CIFARDataModule.val_dataloader (m : CIFARDataModule) :
    Except String DataLoader := do
  let bs ← m.hparams.getattr "batch_size"
  let nw ← m.hparams.getattr "num_workers"
  let pm ← m.hparams.getattr "pin_memory"
  .ok { dataset := m.data_val, batch_size := bs, num_workers := nw,
        pin_memory := pm, shuffle := false }

/-- `CIFARDataModule.test_dataloader`: as `train_dataloader` but over
`self.data_test` with `shuffle=False`. -/
def CIFARDataModule.test_dataloader (m : CIFARDataModule) :
    Except String DataLoader := do
  let bs ← m.hparams.getattr "batch_size"
  let nw ← m.hparams.getattr "num_workers"
  let pm ← m.hparams.getattr "pin_memory"
  .ok { dataset := m.data_test, batch_size := bs, num_workers := nw,
        pin_memory := pm, shuffle := false }

/-- `CIFARDataModule.num_classes`: the property returns the literal 2. -/
def CIFARDataModule.num_classes (_m : CIFARDataModule) : Nat :=
  2

/-- The number of classes of the CIFAR-10 dataset itself (an external
fact about the dataset). -/
def cifar10NumClasses : Nat :=
  10

/-- `CIFARDataModule.teardown(stage)`: body is `pass`; the state is
returned unchanged. -/
def CIFARDataModule.teardown (m : CIFARDataModule) (_stage : Option String) :
    CIFARDataModule :=
  m

/-- `CIFARDataModule.state_dict`: returns the empty dict `{}`
(modelled as an empty association list). -/
def CIFARDataModule.state_dict (_m : CIFARDataModule) : List (String × HVal) :=
  []

/-- `CIFARDataModule.load_state_dict(state_dict)`: body is `pass`; the
state is returned unchanged. -/
def CIFARDataModule.load_state_dict (m : CIFARDataModule)
    (_sd : List (String × HVal)) : CIFARDataModule :=
  m

/-- A concrete stand-in for the seeded `randperm`, used to instantiate
witnesses: it returns `List.range n`, which is a permutation of itself. -/
def idPerm : Nat → Nat → List Nat :=
  fun _ n => List.range n

/-- A fresh instance whose configured split sizes sum to the size of
the pool that `setup` actually builds (100000 samples). -/
def fittingModule : CIFARDataModule :=
  CIFARDataModule.init { defaultHParams with train_val_test_split := (55000, 5000, 40000) }

/-- A fresh instance with the alternative split sizes (50000, 5000,
10000) named by the spec example. -/
def altSplitModule : CIFARDataModule :=
  CIFARDataModule.init { defaultHParams with train_val_test_split := (50000, 5000, 10000) }

/-- The state that a successful `setup` of `fittingModule` produces
under `idPerm`: the three successive slices of the index permutation
`List.range 100000`. -/
def fittingResult : CIFARDataModule :=
  { fittingModule with
    data_train := some ((List.range 100000).take 55000)
    data_val := some (((List.range 100000).drop 55000).take 5000)
    data_test := some ((((List.range 100000).drop 55000).drop 5000).take 40000) }

/-- C1: the claim says `setup` concatenates the train and test
partitions of CIFAR10 into one pool.  The source loads the training
partition (`train=True`) into both variables, so the pool it builds has
`cifar10Size true + cifar10Size true = 100000` samples instead of the
60000 of train plus test, and `setup` on a default-configured fresh
instance consequently fails with the `random_split` size-mismatch
error. -/
theorem C1_pool_duplicates_train_partition :
    cifar10Size true + cifar10Size true = 100000 ∧
    cifar10Size true + cifar10Size false = 60000 ∧
    CIFARDataModule.setup idPerm defaultModule = .error sumLengthsErr :=
  ⟨rfl, rfl, rfl⟩

/-- C2: the claim says the default sizes (55000, 5000, 10000) make
`setup` succeed while (50000, 5000, 10000) fail.  In the code both
fail: the pool holds 100000 samples (the training partition loaded
twice), so both sums 70000 and 65000 mismatch and `setup` raises the
`random_split` size error in each case. -/
theorem C2_both_configured_sizes_fail :
    CIFARDataModule.setup idPerm defaultModule = .error sumLengthsErr ∧
    CIFARDataModule.setup idPerm altSplitModule = .error sumLengthsErr :=
  ⟨rfl, rfl⟩

/-- C6: the claim says the train loader is returned with shuffling
enabled and the val/test loaders with shuffling disabled.  In the code
none of the three dataloader methods returns a loader at all: each
reads `self.hparams.num_workers`, a key that was never saved
(`__init__` names it `num_worker`), so each raises `AttributeError`
while evaluating the `DataLoader` arguments, before any shuffle flag is
passed. -/
theorem C6_dataloaders_raise_attribute_error (m : CIFARDataModule) :
    m.train_dataloader = .error "AttributeError: num_workers" ∧
    m.val_dataloader = .error "AttributeError: num_workers" ∧
    m.test_dataloader = .error "AttributeError: num_workers" :=
  ⟨rfl, rfl, rfl⟩

/-- C7: the claim says each batch source returns a loader parameterized
by the configured worker count without error.  The configured value is
stored under the hyperparameter name `num_worker`, but every dataloader
method reads `num_workers`, so the lookup fails and all three methods
raise `AttributeError` instead of returning a loader. -/
theorem C7_worker_count_never_threaded (m : CIFARDataModule) :
    m.hparams.getattr "num_worker" = .ok (.nat m.hparams.num_worker) ∧
    m.hparams.getattr "num_workers" = .error "AttributeError: num_workers" ∧
    m.train_dataloader = .error "AttributeError: num_workers" ∧
    m.val_dataloader = .error "AttributeError: num_workers" ∧
    m.test_dataloader = .error "AttributeError: num_workers" :=
  ⟨rfl, rfl, rfl, rfl, rfl⟩

/-- C8: `state_dict` returns the empty record on every instance, and
`load_state_dict` of anything (in particular of an exported state) on a
fresh instance changes no field of that instance. -/
theorem C8_checkpoint_export_empty_import_noop (m fresh : CIFARDataModule) :
    m.state_dict = [] ∧ fresh.load_state_dict m.state_dict = fresh :=
  ⟨rfl, rfl⟩

/-- C9: `teardown` is a no-op on every instance and every stage
argument: it leaves every field, including the three subset handles,
unchanged. -/
theorem C9_teardown_is_noop (m : CIFARDataModule) (stage : Option String) :
    m.teardown stage = m :=
  rfl

/-- C10: the `num_classes` property returns the constant 2 on every
instance, regardless of configuration, and 2 differs from the 10
classes of the CIFAR-10 dataset. -/
theorem C10_num_classes_constant_two (m : CIFARDataModule) :
    m.num_classes = 2 ∧ m.num_classes ≠ cifar10NumClasses :=
  ⟨rfl, show (2 : Nat) ≠ 10 by decide⟩

/-- Helper: splitting a list of three lengths yields the three
successive slices of the permuted index list. -/
theorem splitChunks_three (a b c : Nat) (xs : List Nat) :
    splitChunks [a, b, c] xs =
      [xs.take a, (xs.drop a).take b, ((xs.drop a).drop b).take c] :=
  rfl

/-- Helper: `random_split` on three integer lengths either fails with
the size-mismatch error (when the lengths do not sum to the dataset
length) or returns three pairwise disjoint slices of exactly the
requested lengths, provided `randperm` permutes `List.range`. -/
theorem random_split_three (randperm : Nat → Nat → List Nat)
    (hperm : ∀ s n, (randperm s n).Perm (List.range n))
    (N a b c seed : Nat) :
    (a + b + c ≠ N →
      random_split randperm N [a, b, c] seed = .error sumLengthsErr) ∧
    (a + b + c = N →
      ∃ t v w, random_split randperm N [a, b, c] seed = .ok [t, v, w] ∧
        t.length = a ∧ v.length = b ∧ w.length = c ∧
        t.Disjoint v ∧ t.Disjoint w ∧ v.Disjoint w) := by
  have hsum : [a, b, c].sum = a + b + c := by
    simp [List.sum_cons, List.sum_nil]; omega
  constructor
  · intro hne
    unfold random_split
    rw [if_pos]
    rw [hsum]
    exact hne
  · intro heq
    have hx := hperm seed ([a, b, c].sum)
    have hlen : (randperm seed ([a, b, c].sum)).length = a + b + c := by
      rw [hx.length_eq, List.length_range, hsum]
    have hnodup : (randperm seed ([a, b, c].sum)).Nodup :=
      hx.nodup_iff.mpr (List.nodup_range _)
    set xs := randperm seed ([a, b, c].sum) with hxs
    have hnodupd : (xs.drop a).Nodup := hnodup.sublist (List.drop_sublist _ _)
    refine ⟨xs.take a, (xs.drop a).take b, ((xs.drop a).drop b).take c,
      ?_, ?_, ?_, ?_, ?_, ?_, ?_⟩
    · unfold random_split
      rw [if_neg, splitChunks_three]
      rw [hsum]
      omega
    · rw [List.length_take, hlen]; omega
    · rw [List.length_take, List.length_drop, hlen]; omega
    · rw [List.length_take, List.length_drop, List.length_drop, hlen]; omega
    · exact List.disjoint_of_subset_right (List.take_subset _ _)
        (List.disjoint_take_drop hnodup (Nat.le_refl a))
    · exact List.disjoint_of_subset_right
        ((List.take_subset _ _).trans (List.drop_subset _ _))
        (List.disjoint_take_drop hnodup (Nat.le_refl a))
    · exact List.disjoint_of_subset_right (List.take_subset _ _)
        (List.disjoint_take_drop hnodupd (Nat.le_refl b))

/-- C3: on a fresh instance whose configured split sizes are (a, b, c),
`setup` fails with the `random_split` size-mismatch error exactly when
a + b + c differs from the size of the concatenated pool, and when the
sums agree it succeeds and populates the three handles with pairwise
disjoint index lists of lengths a, b and c. -/
theorem C3_split_size_invariant (randperm : Nat → Nat → List Nat)
    (hperm : ∀ s n, (randperm s n).Perm (List.range n))
    (a b c : Nat) (m : CIFARDataModule)
    (h1 : m.data_train = none) (h2 : m.data_val = none) (h3 : m.data_test = none)
    (hsplit : m.hparams.train_val_test_split = (a, b, c)) :
    (a + b + c ≠ cifar10Size true + cifar10Size true →
      m.setup randperm = .error sumLengthsErr) ∧
    (a + b + c = cifar10Size true + cifar10Size true →
      ∃ t v w, m.setup randperm =
          .ok { m with data_train := some t, data_val := some v, data_test := some w } ∧
        t.length = a ∧ v.length = b ∧ w.length = c ∧
        t.Disjoint v ∧ t.Disjoint w ∧ v.Disjoint w) := by
  obtain ⟨herr, hok⟩ := random_split_three randperm hperm
    (cifar10Size true + cifar10Size true) a b c 42
  constructor
  · intro hne
    simp only [CIFARDataModule.setup, h1, h2, h3, hsplit, pyTruthy,
      Bool.not_false, Bool.and_self, if_true]
    rw [herr hne]
  · intro heq
    obtain ⟨t, v, w, hspl, ht, hv, hw, dtv, dtw, dvw⟩ := hok heq
    refine ⟨t, v, w, ?_, ht, hv, hw, dtv, dtw, dvw⟩
    simp only [CIFARDataModule.setup, h1, h2, h3, hsplit, pyTruthy,
      Bool.not_false, Bool.and_self, if_true]
    rw [hspl]

/-- Witness for C3 at the concrete fresh instance whose configured
sizes (55000, 5000, 40000) sum to the 100000-sample pool, with the
identity permutation standing in for the seeded `randperm`. -/
theorem C3_split_size_invariant_witness :
    (55000 + 5000 + 40000 ≠ cifar10Size true + cifar10Size true →
      fittingModule.setup idPerm = .error sumLengthsErr) ∧
    (55000 + 5000 + 40000 = cifar10Size true + cifar10Size true →
      ∃ t v w, fittingModule.setup idPerm =
          .ok { fittingModule with
                data_train := some t, data_val := some v, data_test := some w } ∧
        t.length = 55000 ∧ v.length = 5000 ∧ w.length = 40000 ∧
        t.Disjoint v ∧ t.Disjoint w ∧ v.Disjoint w) :=
  C3_split_size_invariant idPerm (fun _ _ => List.Perm.refl _)
    55000 5000 40000 fittingModule rfl rfl rfl rfl

/-- C4: `setup` is idempotent: once a first invocation on a fresh
instance has succeeded and populated the three handles, invoking
`setup` again returns exactly the same state (the guard skips the
re-split, and even a re-split would recompute identical slices from
the same seed and sizes). -/
theorem C4_setup_idempotent (randperm : Nat → Nat → List Nat)
    (m m2 : CIFARDataModule)
    (h1 : m.data_train = none) (h2 : m.data_val = none) (h3 : m.data_test = none)
    (hs : m.setup randperm = .ok m2) :
    m2.setup randperm = .ok m2 := by
  simp only [CIFARDataModule.setup, h1, h2, h3, pyTruthy,
    Bool.not_false, Bool.and_self, if_true] at hs
  rcases hE : random_split randperm (cifar10Size true + cifar10Size true)
      [m.hparams.train_val_test_split.1, m.hparams.train_val_test_split.2.1,
       m.hparams.train_val_test_split.2.2] 42 with e | subsets
  · rw [hE] at hs
    simp at hs
  · rw [hE] at hs
    rcases subsets with _ | ⟨t, _ | ⟨v, _ | ⟨w, _ | ⟨x, rest⟩⟩⟩⟩
    · simp at hs
    · simp at hs
    · simp at hs
    · simp only [Except.ok.injEq] at hs
      subst hs
      simp only [CIFARDataModule.setup]
      rcases hg : (!pyTruthy (some t) && !pyTruthy (some v) && !pyTruthy (some w)) with hfalse | htrue
      · simp [hg]
      · simp only [hg, if_true]
        rw [hE]
    · simp at hs

/-- Witness for C4: a concrete first `setup` on the fresh
`fittingModule` succeeds with state `fittingResult`, and the theorem
yields that a second `setup` returns `fittingResult` unchanged. -/
theorem C4_setup_idempotent_witness :
    fittingModule.setup idPerm = .ok fittingResult ∧
    fittingResult.setup idPerm = .ok fittingResult :=
  ⟨rfl, C4_setup_idempotent idPerm fittingModule fittingResult rfl rfl rfl rfl⟩

/-- C5: `setup` is deterministic across instances: two fresh instances
carrying the same saved hyperparameters produce the same three subset
index lists, because the shuffle is drawn from the same `randperm`
at the fixed seed 42. -/
theorem C5_setup_deterministic (randperm : Nat → Nat → List Nat)
    (m1 m2 : CIFARDataModule) (hh : m1.hparams = m2.hparams)
    (a1 : m1.data_train = none) (a2 : m1.data_val = none) (a3 : m1.data_test = none)
    (b1 : m2.data_train = none) (b2 : m2.data_val = none) (b3 : m2.data_test = none) :
    Except.map (fun x => (x.data_train, x.data_val, x.data_test)) (m1.setup randperm) =
      Except.map (fun x => (x.data_train, x.data_val, x.data_test)) (m2.setup randperm) := by
  have hm : m1 = m2 := by
    cases m1
    cases m2
    simp_all
  rw [hm]

/-- Witness for C5: two separately constructed fresh instances with
identical configuration yield identical subset triples. -/
theorem C5_setup_deterministic_witness :
    Except.map (fun x => (x.data_train, x.data_val, x.data_test))
        (fittingModule.setup idPerm) =
      Except.map (fun x => (x.data_train, x.data_val, x.data_test))
        ((CIFARDataModule.init
          { defaultHParams with train_val_test_split := (55000, 5000, 40000) }).setup idPerm) :=
  C5_setup_deterministic idPerm fittingModule
    (CIFARDataModule.init
      { defaultHParams with train_val_test_split := (55000, 5000, 40000) })
    rfl rfl rfl rfl rfl rfl rfl
